import Mathlib

/-!
Verification of the BillMate virtual-bank ledger core.

This file gives a shallow embedding of the ledger, normalizer, allocator and
transfer logic found in `src/BankApp/lib/bank.ts`, the bank library half of
`src/app/savings.tsx`, and `src/unnamed/part_000`, and proves or refutes the
frozen claims about them.

Modelling conventions:
- JavaScript `number` is modelled by `JSNum`: either a finite rational or one
  of the non-finite values (`NaN`, `Infinity`, `-Infinity`).  Finite numbers
  are idealised as rationals; `Number.isFinite` is `JSNum.isFinite`.
- Untyped persisted data (the input of `normalizeState`) is modelled by the
  JSON-like type `JSValue`.  Property access `v.foo` is `getField v "foo"`,
  returning `JSValue.undefined` when absent, as in JavaScript.
- Nondeterministic inputs (`Date.now()`, `Math.random()`, `new Date()
  .toISOString()`, firestore reads, cloud-write success) are passed in as
  explicit parameters or environment records; each `await`ed helper call's
  result appears as an environment field at the call site.
- User-facing message strings are abstracted into the inductive `BankMsg`,
  one constructor per distinct string literal of the source (the interpolated
  balance/amount data becomes constructor payloads).
- Storage side effects are reified as an explicit list of `Write` records.
-/

/-- Transaction kind: the `type` field of `BankTransaction`
(`'credit' | 'debit'`). -/
inductive TxType where
  | credit
  | debit
deriving DecidableEq, Repr

/-- The `BankTransaction` record type of `bank.ts` / `savings.tsx` /
`part_000` (identical in all three).  `amount` is a finite JS number,
idealised as a rational. -/
structure BankTransaction where
  id : String
  type : TxType
  amount : ℚ
  note : String
  createdAt : String
deriving DecidableEq, Repr

/-- The `BankState` record type (`balance` plus newest-first transaction
log), identical in all three source modules. -/
structure BankState where
  balance : ℚ
  transactions : List BankTransaction
deriving DecidableEq, Repr

/-- The `defaultBankState` constant: `{ balance: 0, transactions: [] }`. -/
def defaultBankState : BankState := ⟨0, []⟩

/-- A JavaScript number: a finite rational or one of the non-finite values. -/
inductive JSNum where
  | finite (q : ℚ)
  | nan
  | posInf
  | negInf
deriving DecidableEq, Repr

/-- Model of `Number.isFinite`. -/
def JSNum.isFinite : JSNum → Bool
  | .finite _ => true
  | _ => false

/-- The rational carried by a finite JS number (0 for non-finite values;
only used under an `isFinite` guard, mirroring the source's
`Number.isFinite(amount) ? amount : 0`). -/
def JSNum.toRat : JSNum → ℚ
  | .finite q => q
  | _ => 0

/-- Model of the JavaScript comparison `n > q` against a finite rational:
`NaN` compares false, `Infinity` is greater than every finite value. -/
def JSNum.jsGtRat : JSNum → ℚ → Bool
  | .finite p, q => decide (q < p)
  | .posInf, _ => true
  | .negInf, _ => false
  | .nan, _ => false

/-- The `safeAmount` computation appearing in every ledger operation:
`Number.isFinite(amount) ? amount : 0`. -/
def jsSafeAmount (amount : JSNum) : ℚ :=
  if amount.isFinite then amount.toRat else 0

/-- An untyped JavaScript value, as read back from persistence.  `obj` holds
the enumerable string-keyed fields (keys unique). -/
inductive JSValue where
  | null
  | undefined
  | bool (b : Bool)
  | num (n : JSNum)
  | str (s : String)
  | arr (items : List JSValue)
  | obj (fields : List (String × JSValue))

/-- Property access `v[key]`: defined fields of objects, `undefined`
otherwise (arrays have no such string-named own properties). -/
def getField (v : JSValue) (key : String) : JSValue :=
  match v with
  | .obj fields =>
      match fields.lookup key with
      | some x => x
      | none => .undefined
  | _ => .undefined

/-- The guard `value && typeof value === 'object'` of the source: true
exactly for (truthy) objects and arrays.  `null` is excluded by truthiness
even though `typeof null === 'object'`. -/
def isTruthyObject : JSValue → Bool
  | .obj _ => true
  | .arr _ => true
  | _ => false

/-- The guard `Array.isArray(value)`. -/
def isArray : JSValue → Bool
  | .arr _ => true
  | _ => false

/-- The per-item validation inside `normalizeState`: the `.map` callback
returning a well-typed transaction or `null`, fused with the following
`.filter(item => item !== null)` into a `filterMap`. -/
def parseTransaction (item : JSValue) : Option BankTransaction :=
  if isTruthyObject item = false then none
  else
    match getField item "id", getField item "type", getField item "amount",
        getField item "note", getField item "createdAt" with
    | .str id, .str ty, .num (.finite q), .str note, .str createdAt =>
        if ty = "credit" then some ⟨id, .credit, q, note, createdAt⟩
        else if ty = "debit" then some ⟨id, .debit, q, note, createdAt⟩
        else none
    | _, _, _, _, _ => none

/-- `normalizeState` (identical in `bank.ts:46`, `savings.tsx` bank module,
and `part_000:23`): repair arbitrary persisted data into a well-formed
`BankState`.  Non-objects give the default state; a non-finite or non-number
balance becomes 0, a finite balance is clamped with `Math.max(0, ·)`;
a non-array `transactions` field becomes `[]`, and each malformed entry is
dropped. -/
def normalizeState (value : JSValue) : BankState :=
  if isTruthyObject value = false then defaultBankState
  else
    let balance : ℚ :=
      match getField value "balance" with
      | .num (.finite q) => max 0 q
      | _ => 0
    let transactions : List BankTransaction :=
      match getField value "transactions" with
      | .arr items => items.filterMap parseTransaction
      | _ => []
    ⟨balance, transactions⟩

/-- String form of a transaction kind, as serialised to storage. -/
def txTypeString : TxType → String
  | .credit => "credit"
  | .debit => "debit"

/-- How a well-typed transaction looks as a JavaScript value (the identity
shape produced by `JSON.parse(JSON.stringify(tx))` or a firestore read). -/
def transactionToJS (t : BankTransaction) : JSValue :=
  .obj [("id", .str t.id), ("type", .str (txTypeString t.type)),
        ("amount", .num (.finite t.amount)), ("note", .str t.note),
        ("createdAt", .str t.createdAt)]

/-- How a `BankState` looks as a JavaScript value when read back from
storage. -/
def bankStateToJS (s : BankState) : JSValue :=
  .obj [("balance", .num (.finite s.balance)),
        ("transactions", .arr (s.transactions.map transactionToJS))]

/-! ## JavaScript string helpers

Core `String.trim`/`String.toUpper` are byte-position based and do not
reduce in the kernel, so the JS string operations used by the source are
modelled on the underlying character lists. -/

/-- ASCII-range model of JavaScript `toUpperCase` on a character. -/
def asciiUpperChar (c : Char) : Char :=
  if 97 ≤ c.toNat ∧ c.toNat ≤ 122 then Char.ofNat (c.toNat - 32) else c

/-- Model of `String.prototype.toUpperCase` (source strings are ASCII). -/
def jsToUpper (s : String) : String :=
  ⟨s.data.map asciiUpperChar⟩

/-- Model of `String.prototype.trim`: strip leading and trailing
whitespace. -/
def jsTrim (s : String) : String :=
  ⟨((s.data.dropWhile Char.isWhitespace).reverse.dropWhile
      Char.isWhitespace).reverse⟩

/-- The inline normalisation `value.trim().toUpperCase()` used by
`bank.ts` (`transferToAccountByNumber` and the account helpers). -/
def jsTrimUpper (s : String) : String :=
  jsToUpper (jsTrim s)

/-- The `savings.tsx` helper `normalizeAccountNumber`:
`value.trim().toUpperCase().replace(/\s+/g, '')`. -/
def normalizeAccountNumber (value : String) : String :=
  ⟨(jsTrimUpper value).data.filter (fun c => !c.isWhitespace)⟩

/-- Character class `[A-Z0-9]` of the account-number pattern. -/
def isUpperAlnumChar (c : Char) : Bool :=
  (48 ≤ c.toNat && c.toNat ≤ 57) || (65 ≤ c.toNat && c.toNat ≤ 90)

/-- Character class `[a-zA-Z0-9]` used by the `savings.tsx` local fallback
(`uid.replace(/[^a-zA-Z0-9]/g, '')` keeps exactly these). -/
def isAsciiAlnumChar (c : Char) : Bool :=
  (48 ≤ c.toNat && c.toNat ≤ 57) || (65 ≤ c.toNat && c.toNat ≤ 90) ||
    (97 ≤ c.toNat && c.toNat ≤ 122)

/-- The account-number format test `/^BM[A-Z0-9]{6,}$/` (`isValidAccountNumber`
in `savings.tsx`, inlined in `bank.ts:393`). -/
def isValidAccountNumber (s : String) : Bool :=
  match s.data with
  | 'B' :: 'M' :: rest => decide (6 ≤ rest.length) && rest.all isUpperAlnumChar
  | _ => false

/-- Decimal digit character for a digit value (values ≥ 10 never occur). -/
def digitChar : Nat → Char
  | 0 => '0' | 1 => '1' | 2 => '2' | 3 => '3' | 4 => '4'
  | 5 => '5' | 6 => '6' | 7 => '7' | 8 => '8' | _ => '9'

/-- Fuel-driven decimal representation (most significant digit first),
modelling JavaScript `Number.prototype.toString` on naturals. -/
def natDecAux : Nat → Nat → List Char
  | 0, _ => []
  | fuel + 1, n =>
      if n < 10 then [digitChar n]
      else natDecAux fuel (n / 10) ++ [digitChar (n % 10)]

/-- Decimal representation of a natural number, as a character list. -/
def natDec (n : Nat) : List Char :=
  natDecAux (n + 1) n

/-- JavaScript `s.slice(-6)` on a character list: the last (at most) six
characters. -/
def lastSix (l : List Char) : List Char :=
  l.drop (l.length - 6)

/-- `generateAccountNumber` (identical in `bank.ts:89` and `savings.tsx`):
`'BM' + Date.now().toString().slice(-6) + Math.floor(1000 + Math.random() *
9000)`.  `now` is the millisecond clock value and `rand` the `Math.random()`
output (in `[0,1)`). -/
def generateAccountNumber (now : Nat) (rand : ℚ) : String :=
  ⟨'B' :: 'M' :: (lastSix (natDec now) ++
    natDec (Rat.floor (1000 + rand * 9000)).toNat)⟩

/-- The deterministic local fallback of `getOrCreateLocalAccountNumber`
(`savings.tsx:342`):
`'BM' + uid.replace(/[^a-zA-Z0-9]/g, '').slice(0, 10).toUpperCase()`. -/
def localFallbackAccount (uid : String) : String :=
  ⟨'B' :: 'M' :: (((uid.data.filter isAsciiAlnumChar).take 10).map
    asciiUpperChar)⟩

/-! ## Ledger operations (credit / debit)

`addVirtualMoney` and `tryDeductVirtualMoney` are implemented identically in
`src/unnamed/part_000` and `src/app/savings.tsx` (the latter additionally
resolves a persistence target, which does not affect the returned state);
`bank.ts` has the same credit logic.  The previous state below is the result
of the `getBankState()` call the source performs, and the fresh transaction
id (`tx-<Date.now()>`) and `createdAt` timestamp are parameters. -/

/-- User-facing result messages, one constructor per distinct source string
literal; interpolated data becomes payloads.
`mustBeLoggedIn` = "You must be logged in to make payment." (`bank.ts`);
`loginRequired` = "Login required to make payment." (`savings.tsx`);
`invalidAccount` = "Invalid receiver account number.";
`cannotPaySelf` = "You cannot pay your own account.";
`enterValidAmount` = "Enter a valid amount." (`bank.ts` transfer);
`invalidAmount` = "Invalid amount." (`tryDeductVirtualMoney`,
`payToAccountByNumber`);
`insufficientBalance b` = "Insufficient balance. Available: <b>";
`accountNotFound` = "Receiver account not found.";
`partialCloudFailure` = "Payment partially saved locally. Cloud sync
failed.";
`paymentSuccess q t` = "Payment successful: <q> to <t>" (`bank.ts`) /
"Paid <q> to <t>" (`savings.tsx`). -/
inductive BankMsg where
  | mustBeLoggedIn
  | loginRequired
  | invalidAccount
  | cannotPaySelf
  | enterValidAmount
  | invalidAmount
  | insufficientBalance (available : ℚ)
  | accountNotFound
  | partialCloudFailure
  | paymentSuccess (amount : ℚ) (target : String)
deriving DecidableEq, Repr

/-- Return type of `tryDeductVirtualMoney`:
`{ ok: boolean; state: BankState; message?: string }`. -/
structure DeductResult where
  ok : Bool
  state : BankState
  message : Option BankMsg
deriving DecidableEq, Repr

/-- `addVirtualMoney` (`part_000:83`, `savings.tsx:669`, `bank.ts:319`):
reject non-finite or non-positive amounts (returning the current state
unchanged), otherwise add the amount to the balance and prepend one credit
transaction.  `previousState` is the `getBankState()` result. -/
def addVirtualMoney (previousState : BankState) (amount : JSNum)
    (note txId createdAt : String) : BankState :=
  let safeAmount := jsSafeAmount amount
  if safeAmount ≤ 0 then previousState
  else
    { balance := previousState.balance + safeAmount,
      transactions :=
        ⟨txId, .credit, safeAmount, note, createdAt⟩ ::
          previousState.transactions }

/-- `tryDeductVirtualMoney` (`part_000:108`, `savings.tsx:705`): reject
non-finite or non-positive amounts with "Invalid amount.", reject amounts
above the balance with the insufficient-balance message (state unchanged in
both cases), otherwise subtract and prepend one debit transaction. -/
def tryDeductVirtualMoney (previousState : BankState) (amount : JSNum)
    (note txId createdAt : String) : DeductResult :=
  let safeAmount := jsSafeAmount amount
  if safeAmount ≤ 0 then
    ⟨false, previousState, some .invalidAmount⟩
  else if previousState.balance < safeAmount then
    ⟨false, previousState, some (.insufficientBalance previousState.balance)⟩
  else
    ⟨true,
      { balance := previousState.balance - safeAmount,
        transactions :=
          ⟨txId, .debit, safeAmount, note, createdAt⟩ ::
            previousState.transactions },
      none⟩

/-- Tests whether a deduction result carries the insufficient-balance
message. -/
def isInsufficientMsg : Option BankMsg → Bool
  | some (.insufficientBalance _) => true
  | _ => false

/-! ## Dual-tier store read and cross-account transfer (`bank.ts`) -/

/-- JavaScript truthiness filter for an optional string: `null`, `undefined`
and `""` are falsy. -/
def truthyStr : Option String → Option String
  | none => none
  | some s => if s = "" then none else some s

/-- A storage side effect: a bank-state document written to the local cache
(`AsyncStorage.setItem`) or to the remote store (`setDoc` on the `users`
document, `bankState` field).  The first component is the owner key. -/
inductive Write where
  | localBank (ownerKey : String) (state : BankState)
  | remoteBank (ownerKey : String) (state : BankState)
deriving DecidableEq, Repr

/-- The bank state a write persists. -/
def Write.bankState : Write → BankState
  | .localBank _ s => s
  | .remoteBank _ s => s

/-- The remote documents `getBankState` (`bank.ts:266`) may consult for one
user: the `users/<uid>` document data (`none` when the document does not
exist), the legacy `users/<uid>/bank/state` document, and a flag saying the
remote round trip throws (network/permission error). -/
structure UserDocs where
  userDoc : Option JSValue
  legacyDoc : Option JSValue
  fetchError : Bool

/-- The check `typeof userData.bankState === 'object' && userData.bankState
!== null && Array.isArray(userData.bankState.transactions)`
(`bank.ts:283`). -/
def hasUserBankState (d : JSValue) : Bool :=
  isTruthyObject (getField d "bankState") &&
    isArray (getField (getField d "bankState") "transactions")

/-- `getLocalBankState` (`bank.ts:95`): parse-and-normalize the cached JSON,
defaulting on absence (a parse error is modelled as an absent value). -/
def getLocalBankState (localRaw : Option JSValue) : BankState :=
  match localRaw with
  | none => defaultBankState
  | some raw => normalizeState raw

/-- The legacy-migration tail of `getBankState` (`bank.ts:294`): migrate the
old per-user sub-document into `users/<uid>.bankState` if present, otherwise
write and return a fresh default ledger. -/
def getBankStateLegacy (uid : String) (docs : UserDocs) :
    BankState × List Write :=
  match docs.legacyDoc with
  | some l =>
      let legacyState := normalizeState l
      (legacyState, [.remoteBank uid legacyState, .localBank uid legacyState])
  | none => (defaultBankState, [.remoteBank uid defaultBankState])

/-- `getBankState` (`bank.ts:266`): resolve the signed-in user, prefer the
remote `users/<uid>.bankState` (refreshing the local cache), fall back to
legacy migration or fresh-default creation, and on a missing user or remote
error read the local cache.  Returns the state together with the storage
writes performed. -/
def getBankState (firebaseConfigured : Bool) (authUid : Option String)
    (docs : UserDocs) (localRaw : Option JSValue) : BankState × List Write :=
  match truthyStr authUid with
  | none => (defaultBankState, [])
  | some uid =>
      if firebaseConfigured = false then (getLocalBankState localRaw, [])
      else if docs.fetchError then (getLocalBankState localRaw, [])
      else
        match docs.userDoc with
        | some d =>
            if hasUserBankState d then
              let normalizedUserBankState := normalizeState (getField d "bankState")
              (normalizedUserBankState,
                [.localBank uid normalizedUserBankState])
            else getBankStateLegacy uid docs
        | none => getBankStateLegacy uid docs

/-- `saveCloudBankState` (`bank.ts:112`): false (no write) when firebase is
unconfigured, false on a write error, true with the remote write
otherwise.  `writeError` stands for the `setDoc` call throwing. -/
def saveCloudBankState (firebaseConfigured : Bool) (writeError : Bool)
    (uid : String) (state : BankState) : Bool × List Write :=
  if firebaseConfigured = false then (false, [])
  else if writeError then (false, [])
  else (true, [.remoteBank uid state])

/-- Return type of `transferToAccountByNumber`:
`{ ok: boolean; message: string; state: BankState }`. -/
structure TransferResult where
  ok : Bool
  message : BankMsg
  state : BankState
deriving DecidableEq, Repr

/-- Environment of one `transferToAccountByNumber` run: the results of the
awaited collaborator calls.  `senderAccount` is the
`ensureBankAccountForUser(senderUid)` result (that helper's internal
writes, which never touch existing bank balances, are not tracked here);
`receiverUid` is the `getUidByAccountNumber(normalizedTarget)` result;
`receiverBankState` is `receiverSnapshot.data()?.bankState`
(`JSValue.undefined` when absent); the two error flags drive the two
`saveCloudBankState` calls. -/
structure XferEnv where
  firebaseConfigured : Bool
  authUid : Option String
  senderAccount : Option String
  senderDocs : UserDocs
  senderLocal : Option JSValue
  receiverUid : Option String
  receiverBankState : JSValue
  senderCloudErr : Bool
  receiverCloudErr : Bool

/-- The fresh ids and timestamps minted during a transfer:
`tx-<Date.now()>-debit` / `tx-<Date.now()>-credit` and the two
`new Date().toISOString()` values. -/
structure XferIds where
  debitId : String
  creditId : String
  debitAt : String
  creditAt : String

/-- The sender's `getBankState()` call inside `transferToAccountByNumber`. -/
def senderRead (env : XferEnv) : BankState × List Write :=
  getBankState env.firebaseConfigured env.authUid env.senderDocs
    env.senderLocal

/-- The sender's next state computed by `transferToAccountByNumber`
(`bank.ts:442`): balance minus the amount, one debit transaction noting the
normalized target prepended. -/
def xferSenderNext (env : XferEnv) (target note : String) (amount : JSNum)
    (ids : XferIds) : BankState :=
  { balance := (senderRead env).1.balance - jsSafeAmount amount,
    transactions :=
      ⟨ids.debitId, .debit, jsSafeAmount amount,
        note ++ " to " ++ jsTrimUpper target, ids.debitAt⟩ ::
        (senderRead env).1.transactions }

/-- The receiver's next state computed by `transferToAccountByNumber`
(`bank.ts:456`): the normalized receiver document balance plus the amount,
one credit transaction noting `senderAccountNumber ?? senderUid`
prepended. -/
def xferReceiverNext (env : XferEnv) (senderUid : String) (note : String)
    (amount : JSNum) (ids : XferIds) : BankState :=
  { balance := (normalizeState env.receiverBankState).balance +
      jsSafeAmount amount,
    transactions :=
      ⟨ids.creditId, .credit, jsSafeAmount amount,
        note ++ " from " ++ env.senderAccount.getD senderUid, ids.creditAt⟩ ::
        (normalizeState env.receiverBankState).transactions }

/-- `transferToAccountByNumber` (`bank.ts:378`): the full transfer protocol
of the bank library — login check, target format check, self-transfer
check, amount check, balance check, receiver resolution, computation of
both next states, independent cloud writes for the two sides followed by
unconditional local cache writes, with a partial-failure result if either
cloud write did not succeed.  Returns the result together with the storage
writes performed. -/
def transferToAccountByNumber (env : XferEnv) (target : String)
    (amount : JSNum) (note : String) (ids : XferIds) :
    TransferResult × List Write :=
  match truthyStr env.authUid with
  | none => (⟨false, .mustBeLoggedIn, defaultBankState⟩, [])
  | some senderUid =>
      let normalizedTarget := jsTrimUpper target
      if isValidAccountNumber normalizedTarget = false then
        (⟨false, .invalidAccount, (senderRead env).1⟩, (senderRead env).2)
      else if (truthyStr env.senderAccount).map jsTrimUpper =
          some normalizedTarget then
        (⟨false, .cannotPaySelf, (senderRead env).1⟩, (senderRead env).2)
      else
        let safeAmount := jsSafeAmount amount
        if safeAmount ≤ 0 then
          (⟨false, .enterValidAmount, (senderRead env).1⟩, (senderRead env).2)
        else if (senderRead env).1.balance < safeAmount then
          (⟨false, .insufficientBalance (senderRead env).1.balance,
            (senderRead env).1⟩, (senderRead env).2)
        else
          match truthyStr env.receiverUid with
          | none =>
              (⟨false, .accountNotFound, (senderRead env).1⟩,
                (senderRead env).2)
          | some receiverUid =>
              let senderNextState := xferSenderNext env target note amount ids
              let receiverNextState :=
                xferReceiverNext env senderUid note amount ids
              let senderSave := saveCloudBankState env.firebaseConfigured
                env.senderCloudErr senderUid senderNextState
              let receiverSave := saveCloudBankState env.firebaseConfigured
                env.receiverCloudErr receiverUid receiverNextState
              let writes := (senderRead env).2 ++ senderSave.2 ++
                receiverSave.2 ++
                [.localBank senderUid senderNextState,
                 .localBank receiverUid receiverNextState]
              if senderSave.1 = false ∨ receiverSave.1 = false then
                (⟨false, .partialCloudFailure, senderNextState⟩, writes)
              else
                (⟨true, .paymentSuccess safeAmount normalizedTarget,
                  senderNextState⟩, writes)

/-! ## Transfer on the savings.tsx side (`payToAccountByNumber`) -/

/-- `BankOwnerContext` of `savings.tsx`: the resolved cloud owner (if any)
and the local cache key. -/
structure BankOwnerContext where
  cloudOwnerUid : Option String
  localOwnerKey : String

/-- `persistStateForOwner` (`savings.tsx:361`): try the cloud write when a
cloud owner is resolved, silently degrading to the local cache on failure;
purely local otherwise. -/
def persistStateForOwner (ownerContext : BankOwnerContext) (cloudErr : Bool)
    (state : BankState) : List Write :=
  match truthyStr ownerContext.cloudOwnerUid with
  | some u => if cloudErr then [.localBank ownerContext.localOwnerKey state]
      else [.remoteBank u state]
  | none => [.localBank ownerContext.localOwnerKey state]

/-- Return type of `payToAccountByNumber`:
`{ ok: boolean; state: BankState; message: string }`. -/
structure PayResult where
  ok : Bool
  state : BankState
  message : BankMsg
deriving DecidableEq, Repr

/-- Environment of one `payToAccountByNumber` run (`savings.tsx:753`): the
results of the awaited helper calls.  `payerState` is the initial
`getBankState()` result; `ownAccountNumber` the
`ensureBankAccountForUser(currentUid)` result; `recipientUid` the
`getUidByAccountNumber` result; `payerCtx` the payer's
`resolveBankOwnerContext()` result; `recipientCloudPrev` /
`recipientLocalPrev` the recipient's prior state as read by
`ensureCloudBankDoc` respectively `getLocalBankState`.  Internal writes of
those read helpers are not tracked; the returned write list covers the two
`persistStateForOwner` calls. -/
structure PayEnv where
  authUid : Option String
  firebaseConfigured : Bool
  payerState : BankState
  ownAccountNumber : Option String
  recipientUid : Option String
  payerCtx : BankOwnerContext
  recipientCloudPrev : BankState
  recipientLocalPrev : BankState
  payerCloudErr : Bool
  recipientCloudErr : Bool

/-- `payToAccountByNumber` (`savings.tsx:753`): the savings-module transfer.
Note the validation order: target format, then amount, then the
self-payment check, then balance. -/
def payToAccountByNumber (env : PayEnv) (accountNumber : String)
    (amount : JSNum) (note : String) (ids : XferIds) :
    PayResult × List Write :=
  let payerState := env.payerState
  match truthyStr env.authUid with
  | none => (⟨false, payerState, .loginRequired⟩, [])
  | some currentUid =>
      let normalizedAccountNumber := normalizeAccountNumber accountNumber
      if normalizedAccountNumber = "" ∨
          isValidAccountNumber normalizedAccountNumber = false then
        (⟨false, payerState, .invalidAccount⟩, [])
      else
        let safeAmount := jsSafeAmount amount
        if safeAmount ≤ 0 then
          (⟨false, payerState, .invalidAmount⟩, [])
        else if (truthyStr env.ownAccountNumber).map normalizeAccountNumber =
            some normalizedAccountNumber then
          (⟨false, payerState, .cannotPaySelf⟩, [])
        else if payerState.balance < safeAmount then
          (⟨false, payerState, .insufficientBalance payerState.balance⟩, [])
        else
          match truthyStr env.recipientUid with
          | none => (⟨false, payerState, .accountNotFound⟩, [])
          | some recipientUid =>
              let payerNextState : BankState :=
                { balance := payerState.balance - safeAmount,
                  transactions :=
                    ⟨ids.debitId, .debit, safeAmount,
                      note ++ " to " ++ normalizedAccountNumber,
                      ids.debitAt⟩ :: payerState.transactions }
              let recipientOwnerContext : BankOwnerContext :=
                ⟨if env.firebaseConfigured then some recipientUid else none,
                  "acc:" ++ normalizedAccountNumber⟩
              let recipientPreviousState :=
                match truthyStr recipientOwnerContext.cloudOwnerUid with
                | some _ => env.recipientCloudPrev
                | none => env.recipientLocalPrev
              let recipientNextState : BankState :=
                { balance := recipientPreviousState.balance + safeAmount,
                  transactions :=
                    ⟨ids.creditId, .credit, safeAmount,
                      note ++ " from " ++ env.ownAccountNumber.getD currentUid,
                      ids.creditAt⟩ :: recipientPreviousState.transactions }
              let writes :=
                persistStateForOwner env.payerCtx env.payerCloudErr
                  payerNextState ++
                persistStateForOwner recipientOwnerContext
                  env.recipientCloudErr recipientNextState
              (⟨true, payerNextState,
                .paymentSuccess safeAmount normalizedAccountNumber⟩, writes)

/-! ## Account provisioning (`ensureBankAccountForUser`, `bank.ts:179`) -/

/-- What one `runTransaction` attempt observes: the `accountNumber` field of
the user document at transaction time, whether the `bankAccounts/<candidate>`
mapping document already exists (candidate collision), and whether the
transaction fails with an infrastructure error. -/
structure TxView where
  latestExisting : Option String
  mappingExists : Bool
  txError : Bool

/-- Environment of one `ensureBankAccountForUser` run.  `candidateSeed i`
supplies the `(Date.now(), Math.random())` pair of the candidate generated
for attempt `i`; `fallbackSeed` the pair for the single
`generateAccountNumber()` call of whichever fallback path (if any) runs
— each run executes at most one fallback, since every fallback returns
immediately. -/
structure EnsureEnv where
  firebaseConfigured : Bool
  fetchError : Bool
  userDocAccount : Option String
  txViews : Nat → TxView
  candidateSeed : Nat → Nat × ℚ
  fallbackSeed : Nat × ℚ

/-- The candidate generated for reservation attempt `i`. -/
def envCandidate (env : EnsureEnv) (i : Nat) : String :=
  generateAccountNumber (env.candidateSeed i).1 (env.candidateSeed i).2

/-- The account number generated by the fallback path. -/
def envFallback (env : EnsureEnv) : String :=
  generateAccountNumber env.fallbackSeed.1 env.fallbackSeed.2

/-- The 8-attempt reservation loop of `ensureBankAccountForUser`
(`bank.ts:214`): per attempt, an infrastructure error falls back to a fresh
generated number; an existing (non-blank) account on the user document is
returned as is; a mapping collision retries; otherwise the candidate is
committed.  Exhausting the loop falls back to a fresh generated number. -/
def ensureReserveLoop (env : EnsureEnv) : Nat → Nat → String
  | _, 0 => envFallback env
  | i, fuel + 1 =>
      let candidate := envCandidate env i
      let v := env.txViews i
      if v.txError then envFallback env
      else
        match v.latestExisting with
        | some a =>
            if jsTrim a = "" then
              if v.mappingExists then ensureReserveLoop env (i + 1) fuel
              else candidate
            else a
        | none =>
            if v.mappingExists then ensureReserveLoop env (i + 1) fuel
            else candidate

/-- `ensureBankAccountForUser` (`bank.ts:179`).  `localStored` is the local
cache entry `bankapp:account-number:<uid>`; the function returns the
account number (or `null` for a falsy uid) together with the new local cache
entry — every successful path stores its result locally before
returning. -/
def ensureBankAccountForUser (env : EnsureEnv) (localStored : Option String)
    (uid : String) : Option String × Option String :=
  if uid = "" then (none, localStored)
  else
    match truthyStr localStored with
    | some v => (some v, localStored)
    | none =>
        if env.firebaseConfigured = false then
          (some (envFallback env), some (envFallback env))
        else if env.fetchError then
          (some (envFallback env), some (envFallback env))
        else
          match env.userDocAccount with
          | some a =>
              if jsTrim a = "" then
                (some (ensureReserveLoop env 0 8),
                  some (ensureReserveLoop env 0 8))
              else (some a, some a)
          | none =>
              (some (ensureReserveLoop env 0 8),
                some (ensureReserveLoop env 0 8))

/-! ## Local account allocation (`getOrCreateLocalAccountNumber`,
`savings.tsx:322`) -/

/-- Whether the local uid map has a (truthy) entry for a candidate: the
`!uidMap[candidate]` check. -/
def uidMapTaken (uidMap : List (String × String)) (candidate : String) : Bool :=
  match uidMap.lookup candidate with
  | some v => !(v = "")
  | none => false

/-- The 10-attempt candidate loop of `getOrCreateLocalAccountNumber`
(`savings.tsx:332`); `gens i` is the `(Date.now(), Math.random())` pair of
attempt `i`. -/
def localAllocLoop (uidMap : List (String × String)) (gens : Nat → Nat × ℚ) :
    Nat → Nat → Option String
  | _, 0 => none
  | i, fuel + 1 =>
      let candidate := generateAccountNumber (gens i).1 (gens i).2
      if uidMapTaken uidMap candidate then
        localAllocLoop uidMap gens (i + 1) fuel
      else some candidate

/-- `getOrCreateLocalAccountNumber` (`savings.tsx:322`): return the
normalized stored number if cached, otherwise try 10 generated candidates
against the local uid map, and finally fall back to the deterministic
uid-derived account number. -/
def getOrCreateLocalAccountNumber (stored : Option String)
    (uidMap : List (String × String)) (gens : Nat → Nat × ℚ)
    (uid : String) : String :=
  match truthyStr stored with
  | some s => normalizeAccountNumber s
  | none =>
      match localAllocLoop uidMap gens 0 10 with
      | some candidate => candidate
      | none => localFallbackAccount uid

/-! ## Concrete environments used to exercise the model -/

/-- A transfer environment for a fully provisioned pair of users: sender
`u1` (account `BMAAA111`, remote ledger with balance 100), receiver `u2`
(account `BM222222`, no prior ledger document), working cloud. -/
def xferOkEnv : XferEnv :=
  { firebaseConfigured := true
    authUid := some "u1"
    senderAccount := some "BMAAA111"
    senderDocs :=
      ⟨some (JSValue.obj [("bankState", bankStateToJS ⟨100, []⟩)]), none,
        false⟩
    senderLocal := none
    receiverUid := some "u2"
    receiverBankState := JSValue.undefined
    senderCloudErr := false
    receiverCloudErr := false }

/-- Like `xferOkEnv` but the receiver-side cloud write fails. -/
def xferPartialEnv : XferEnv :=
  { xferOkEnv with receiverCloudErr := true }

/-- A transfer environment for a signed-in user whose remote user document
and legacy document do not exist yet (so reading the sender state creates a
fresh default remote ledger). -/
def xferFreshUserEnv : XferEnv :=
  { firebaseConfigured := true
    authUid := some "u1"
    senderAccount := some "BMAAA111"
    senderDocs := ⟨none, none, false⟩
    senderLocal := none
    receiverUid := none
    receiverBankState := JSValue.undefined
    senderCloudErr := false
    receiverCloudErr := false }

/-- A payment environment in which user `u1` owns account `BM123456` and
holds a balance of 50. -/
def payOwnAccountEnv : PayEnv :=
  { authUid := some "u1"
    firebaseConfigured := true
    payerState := ⟨50, []⟩
    ownAccountNumber := some "BM123456"
    recipientUid := some "u1"
    payerCtx := ⟨some "u1", "acc:BM123456"⟩
    recipientCloudPrev := ⟨50, []⟩
    recipientLocalPrev := defaultBankState
    payerCloudErr := false
    recipientCloudErr := false }

/-- A payment environment for a fully provisioned pair of users: payer `u1`
(account `BMAAA111`, balance 100) paying account `BM222222` of user `u2`
(no prior ledger), working cloud. -/
def payOkEnv : PayEnv :=
  { authUid := some "u1"
    firebaseConfigured := true
    payerState := ⟨100, []⟩
    ownAccountNumber := some "BMAAA111"
    recipientUid := some "u2"
    payerCtx := ⟨some "u1", "acc:BMAAA111"⟩
    recipientCloudPrev := ⟨0, []⟩
    recipientLocalPrev := defaultBankState
    payerCloudErr := false
    recipientCloudErr := false }

/-- A provisioning environment with a reachable, conflict-free remote
store and no pre-existing account. -/
def ensureOkEnv : EnsureEnv :=
  { firebaseConfigured := true
    fetchError := false
    userDocAccount := none
    txViews := fun _ => ⟨none, false, false⟩
    candidateSeed := fun _ => (1771234567890, 0)
    fallbackSeed := (1771234567890, 0) }

/-- A second provisioning environment (different generator outcomes) for
re-running the allocator. -/
def ensureRetryEnv : EnsureEnv :=
  { firebaseConfigured := true
    fetchError := true
    userDocAccount := none
    txViews := fun _ => ⟨none, true, false⟩
    candidateSeed := fun _ => (1779999999999, 0)
    fallbackSeed := (1779999999999, 0) }

/-- A local uid map owning every candidate the clock/random stream of
`localAllocCexGens` can produce, forcing the deterministic fallback. -/
def localAllocCexMap : List (String × String) :=
  [("BM1000001000", "someone-else")]

/-- A degenerate generator stream: every attempt sees the same clock value
`100000` and `Math.random() = 0`, so every candidate is `BM1000001000`. -/
def localAllocCexGens : Nat → Nat × ℚ := fun _ => (100000, 0)

/-! ## Helper lemmas -/

theorem parseTransaction_transactionToJS (t : BankTransaction) :
    parseTransaction (transactionToJS t) = some t := by
  obtain ⟨id, ty, amount, note, createdAt⟩ := t
  cases ty <;> rfl

theorem filterMap_parse_map_toJS (l : List BankTransaction) :
    (l.map transactionToJS).filterMap parseTransaction = l := by
  rw [List.filterMap_map]
  induction l with
  | nil => rfl
  | cons t ts ih =>
      simp [List.filterMap_cons, Function.comp,
        parseTransaction_transactionToJS, ih]

theorem normalizeState_bankStateToJS (s : BankState) (h : 0 ≤ s.balance) :
    normalizeState (bankStateToJS s) = s := by
  obtain ⟨b, l⟩ := s
  show BankState.mk (max 0 b) (l.map transactionToJS |>.filterMap parseTransaction) = ⟨b, l⟩
  rw [filterMap_parse_map_toJS, max_eq_right h]

theorem normalizeState_balance_nonneg (x : JSValue) :
    0 ≤ (normalizeState x).balance := by
  unfold normalizeState
  split
  · exact le_refl 0
  · split
    · exact le_max_left 0 _
    all_goals exact le_refl 0

theorem digitChar_isUpperAlnum (k : Nat) : isUpperAlnumChar (digitChar k) = true := by
  rcases k with _ | _ | _ | _ | _ | _ | _ | _ | _ | k <;> rfl

theorem natDecAux_all_digits (fuel n : Nat) :
    (natDecAux fuel n).all isUpperAlnumChar = true := by
  induction fuel generalizing n with
  | zero => rfl
  | succ fuel ih =>
      unfold natDecAux
      split
      · simp [digitChar_isUpperAlnum]
      · simp [List.all_append, ih, digitChar_isUpperAlnum]

theorem natDecAux_length_ge (k : Nat) :
    ∀ fuel n, n < fuel → 10 ^ k ≤ n → k + 1 ≤ (natDecAux fuel n).length := by
  induction k with
  | zero =>
      intro fuel n hfuel _
      match fuel with
      | fuel + 1 =>
          unfold natDecAux
          split
          · simp
          · simp
  | succ k ih =>
      intro fuel n hfuel hn
      match fuel with
      | fuel + 1 =>
          unfold natDecAux
          have h10 : ¬ n < 10 := by
            intro hlt
            have : 10 ≤ 10 ^ (k + 1) := by
              calc 10 = 10 ^ 1 := by norm_num
              _ ≤ 10 ^ (k + 1) := Nat.pow_le_pow_right (by norm_num) (by omega)
            omega
          rw [if_neg h10]
          have hdiv : 10 ^ k ≤ n / 10 := by
            rw [Nat.le_div_iff_mul_le (by norm_num)]
            calc 10 ^ k * 10 = 10 ^ (k + 1) := by ring
            _ ≤ n := hn
          have hfuel' : n / 10 < fuel := by
            have := Nat.div_lt_self (by omega : 0 < n) (by norm_num : 1 < 10)
            omega
          have := ih fuel (n / 10) hfuel' hdiv
          simp only [List.length_append, List.length_cons, List.length_nil]
          omega

theorem natDec_all_digits (n : Nat) : (natDec n).all isUpperAlnumChar = true :=
  natDecAux_all_digits _ _

theorem natDec_length_ge (k n : Nat) (h : 10 ^ k ≤ n) :
    k + 1 ≤ (natDec n).length :=
  natDecAux_length_ge k _ n (Nat.lt_succ_self n) h

theorem lastSix_all {l : List Char} (h : l.all isUpperAlnumChar = true) :
    (lastSix l).all isUpperAlnumChar = true := by
  unfold lastSix
  rw [List.all_eq_true] at h ⊢
  intro c hc
  exact h c (List.mem_of_mem_drop hc)

theorem lastSix_length_ge {l : List Char} {k : Nat} (hk : k ≤ 6)
    (h : k ≤ l.length) : k ≤ (lastSix l).length := by
  unfold lastSix
  rw [List.length_drop]
  omega

theorem char_toNat_ofNat (n : Nat) (h : n.isValidChar) :
    (Char.ofNat n).toNat = n := by
  simp [Char.ofNat, h, Char.ofNatAux, Char.toNat, UInt32.toNat]

theorem asciiUpperChar_upperAlnum {c : Char} (h : isAsciiAlnumChar c = true) :
    isUpperAlnumChar (asciiUpperChar c) = true := by
  simp only [isAsciiAlnumChar, Bool.or_eq_true, Bool.and_eq_true,
    decide_eq_true_eq] at h
  unfold asciiUpperChar
  split
  · next hlow =>
      have hval : (c.toNat - 32).isValidChar := by
        left
        omega
      simp only [isUpperAlnumChar, Bool.or_eq_true, Bool.and_eq_true,
        decide_eq_true_eq, char_toNat_ofNat _ hval]
      omega
  · next hlow =>
      simp only [isUpperAlnumChar, Bool.or_eq_true, Bool.and_eq_true,
        decide_eq_true_eq]
      omega

theorem generateAccountNumber_valid (now : Nat) (rand : ℚ)
    (hnow : 10 ≤ now) (hrand : 0 ≤ rand) :
    isValidAccountNumber (generateAccountNumber now rand) = true := by
  unfold generateAccountNumber isValidAccountNumber
  simp only
  have hfloor : (1000 : ℤ) ≤ Rat.floor (1000 + rand * 9000) := by
    rw [Rat.le_floor]
    push_cast
    nlinarith
  have hrandNat : 1000 ≤ (Rat.floor (1000 + rand * 9000)).toNat := by omega
  have hrandLen : 4 ≤ (natDec (Rat.floor (1000 + rand * 9000)).toNat).length := by
    have := natDec_length_ge 3 (Rat.floor (1000 + rand * 9000)).toNat
      (by norm_num; omega)
    omega
  have hnowLen : 2 ≤ (lastSix (natDec now)).length := by
    refine lastSix_length_ge (by norm_num) ?_
    have := natDec_length_ge 1 now (by norm_num; omega)
    omega
  rw [Bool.and_eq_true]
  constructor
  · rw [decide_eq_true_eq, List.length_append]
    omega
  · rw [List.all_append]
    rw [Bool.and_eq_true]
    exact ⟨lastSix_all (natDec_all_digits now), natDec_all_digits _⟩

theorem localFallbackAccount_valid (uid : String)
    (h : 6 ≤ (uid.data.filter isAsciiAlnumChar).length) :
    isValidAccountNumber (localFallbackAccount uid) = true := by
  unfold localFallbackAccount isValidAccountNumber
  simp only
  rw [Bool.and_eq_true]
  constructor
  · rw [decide_eq_true_eq, List.length_map, List.length_take]
    omega
  · rw [List.all_eq_true]
    intro c hc
    rw [List.mem_map] at hc
    obtain ⟨d, hd, rfl⟩ := hc
    have hdal : isAsciiAlnumChar d = true := by
      have := List.mem_of_mem_take hd
      exact List.of_mem_filter this
    exact asciiUpperChar_upperAlnum hdal

theorem generateAccountNumber_ne_empty (now : Nat) (rand : ℚ) :
    generateAccountNumber now rand ≠ "" := by
  intro h
  have := congrArg String.data h
  simp [generateAccountNumber] at this

theorem getBankState_fst_nonneg (cfg : Bool) (uid : Option String)
    (docs : UserDocs) (localRaw : Option JSValue) :
    0 ≤ (getBankState cfg uid docs localRaw).1.balance := by
  unfold getBankState
  cases truthyStr uid with
  | none => exact le_refl 0
  | some u =>
      simp only
      split
      · cases localRaw with
        | none => exact le_refl 0
        | some raw => exact normalizeState_balance_nonneg raw
      · split
        · cases localRaw with
          | none => exact le_refl 0
          | some raw => exact normalizeState_balance_nonneg raw
        · split
          · split
            · exact normalizeState_balance_nonneg _
            · unfold getBankStateLegacy
              split
              · exact normalizeState_balance_nonneg _
              · exact le_refl 0
          · unfold getBankStateLegacy
            split
            · exact normalizeState_balance_nonneg _
            · exact le_refl 0

theorem getBankStateLegacy_writes_nonneg (uid : String) (docs : UserDocs) :
    ∀ w ∈ (getBankStateLegacy uid docs).2, 0 ≤ w.bankState.balance := by
  unfold getBankStateLegacy
  split
  · intro w hw
    simp only [List.mem_cons, List.not_mem_nil, or_false] at hw
    rcases hw with rfl | rfl
    · exact normalizeState_balance_nonneg _
    · exact normalizeState_balance_nonneg _
  · intro w hw
    simp only [List.mem_cons, List.not_mem_nil, or_false] at hw
    subst hw
    exact le_refl 0

theorem getBankState_writes_nonneg (cfg : Bool) (uid : Option String)
    (docs : UserDocs) (localRaw : Option JSValue) :
    ∀ w ∈ (getBankState cfg uid docs localRaw).2, 0 ≤ w.bankState.balance := by
  unfold getBankState
  cases truthyStr uid with
  | none => intro w hw; cases hw
  | some u =>
      simp only
      split
      · intro w hw; cases hw
      · split
        · intro w hw; cases hw
        · split
          · split
            · intro w hw
              simp only [List.mem_cons, List.not_mem_nil, or_false] at hw
              subst hw
              exact normalizeState_balance_nonneg _
            · exact getBankStateLegacy_writes_nonneg u docs
          · exact getBankStateLegacy_writes_nonneg u docs

/-- C5: `normalizeState` is a total repair function: re-normalizing a
normalized state (read back through its JavaScript representation) is the
identity, `normalize(null)` is the default empty state, and every output
has a non-negative balance (well-formedness). -/
theorem normalizeState_total_idempotent :
    (∀ x, normalizeState (bankStateToJS (normalizeState x)) = normalizeState x) ∧
    normalizeState JSValue.null = defaultBankState ∧
    ∀ x, 0 ≤ (normalizeState x).balance :=
  ⟨fun x => normalizeState_bankStateToJS _ (normalizeState_balance_nonneg x),
    rfl, normalizeState_balance_nonneg⟩

/-- C2: for every ledger state and finite positive amount, the credit
operation returns the state with the balance increased by exactly that
amount and exactly one credit transaction carrying that amount prepended. -/
theorem addVirtualMoney_credit_spec (s : BankState) (q : ℚ) (h : 0 < q)
    (note txId createdAt : String) :
    addVirtualMoney s (.finite q) note txId createdAt =
      ⟨s.balance + q, ⟨txId, .credit, q, note, createdAt⟩ :: s.transactions⟩ := by
  show (if (q : ℚ) ≤ 0 then s
      else ⟨s.balance + q,
        ⟨txId, .credit, q, note, createdAt⟩ :: s.transactions⟩) =
    ⟨s.balance + q, ⟨txId, .credit, q, note, createdAt⟩ :: s.transactions⟩
  rw [if_neg (not_le.mpr h)]

/-- Witness for C2: crediting 2 onto a balance of 3. -/
theorem addVirtualMoney_credit_spec_witness :
    addVirtualMoney ⟨3, []⟩ (.finite 2) "Added money" "tx-1" "t1" =
      ⟨(3 : ℚ) + 2, [⟨"tx-1", .credit, 2, "Added money", "t1"⟩]⟩ :=
  addVirtualMoney_credit_spec ⟨3, []⟩ 2 (by decide) "Added money" "tx-1" "t1"

/-- C3 counterexample: `amount = Infinity` exceeds the (zero) balance in the
JavaScript ordering, yet `tryDeductVirtualMoney` reports "Invalid amount.",
not the insufficient-balance failure the claim requires, because the
`safeAmount <= 0` check (which maps every non-finite amount to 0) runs
first. -/
theorem tryDeduct_infinity_counterexample :
    JSNum.posInf.jsGtRat defaultBankState.balance = true ∧
    (tryDeductVirtualMoney defaultBankState JSNum.posInf "Spend" "tx-1"
      "t1").message = some BankMsg.invalidAmount ∧
    isInsufficientMsg (tryDeductVirtualMoney defaultBankState JSNum.posInf
      "Spend" "tx-1" "t1").message = false := by
  refine ⟨rfl, ?_, ?_⟩ <;> decide

/-- C3 (amended): for a finite amount exceeding a non-negative balance the
debit fails with the insufficient-balance result and an unchanged state;
for every amount, failure leaves the state unchanged and success never
produces a negative balance; and the debit leg of
`transferToAccountByNumber` behaves the same way: past the format and
self-transfer checks, a finite amount exceeding the sender's (always
non-negative) read balance fails with the insufficient-balance result,
returning the sender's current state with no transfer-leg writes. -/
theorem tryDeduct_insufficient_spec (s : BankState) (q : ℚ)
    (note txId createdAt : String) (hb : 0 ≤ s.balance)
    (hq : s.balance < q) :
    tryDeductVirtualMoney s (.finite q) note txId createdAt =
      ⟨false, s, some (.insufficientBalance s.balance)⟩ ∧
    (∀ amount n i c,
      ((tryDeductVirtualMoney s amount n i c).ok = false →
        (tryDeductVirtualMoney s amount n i c).state = s) ∧
      ((tryDeductVirtualMoney s amount n i c).ok = true →
        0 ≤ (tryDeductVirtualMoney s amount n i c).state.balance)) ∧
    ∀ env target ids senderUid a,
      truthyStr env.authUid = some senderUid →
      isValidAccountNumber (jsTrimUpper target) = true →
      truthyStr env.senderAccount = some a →
      jsTrimUpper a ≠ jsTrimUpper target →
      (senderRead env).1.balance < q →
      transferToAccountByNumber env target (.finite q) note ids =
        (⟨false, .insufficientBalance (senderRead env).1.balance,
          (senderRead env).1⟩, (senderRead env).2) := by
  refine ⟨?_, ?_, ?_⟩
  · show (if (q : ℚ) ≤ 0 then
        DeductResult.mk false s (some BankMsg.invalidAmount)
      else if s.balance < q then
        ⟨false, s, some (.insufficientBalance s.balance)⟩
      else ⟨true, ⟨s.balance - q,
        ⟨txId, .debit, q, note, createdAt⟩ :: s.transactions⟩, none⟩) =
      ⟨false, s, some (.insufficientBalance s.balance)⟩
    rw [if_neg (not_le.mpr (lt_of_le_of_lt hb hq)), if_pos hq]
  · intro amount n i c
    simp only [tryDeductVirtualMoney]
    split
    · exact ⟨fun _ => rfl, fun h => nomatch h⟩
    · split
      · exact ⟨fun _ => rfl, fun h => nomatch h⟩
      · next h1 h2 =>
          exact ⟨fun h => Bool.noConfusion h,
            fun _ => sub_nonneg.mpr (not_lt.mp h2)⟩
  · intro env target ids senderUid a hUid hValid hAcct hDistinct hgt
    have hsafe : ¬ jsSafeAmount (.finite q) ≤ 0 :=
      not_le.mpr (lt_of_le_of_lt (getBankState_fst_nonneg
        env.firebaseConfigured env.authUid env.senderDocs env.senderLocal)
        hgt)
    have hbal : (senderRead env).1.balance < jsSafeAmount (.finite q) := hgt
    simp only [transferToAccountByNumber, hUid, hValid, hAcct,
      Option.map_some', Option.some.injEq, hDistinct, hsafe, hbal,
      Bool.true_eq_false, ite_false, ite_true, if_true, if_false, if_neg,
      not_false_eq_true]

/-- Witness for C3's amended theorem: deducting 700 from a balance of 5,
and transferring 700 out of user `u1`'s balance of 100. -/
theorem tryDeduct_insufficient_spec_witness :
    tryDeductVirtualMoney ⟨5, []⟩ (.finite 700) "Spend" "tx-1" "t1" =
      ⟨false, ⟨5, []⟩, some (.insufficientBalance 5)⟩ ∧
    transferToAccountByNumber xferOkEnv "BM222222" (.finite 700) "Spend"
      ⟨"tx-d", "tx-c", "t1", "t2"⟩ =
      (⟨false, .insufficientBalance (senderRead xferOkEnv).1.balance,
        (senderRead xferOkEnv).1⟩, (senderRead xferOkEnv).2) := by
  have h := tryDeduct_insufficient_spec ⟨5, []⟩ 700 "Spend" "tx-1" "t1"
    (by decide) (by decide)
  exact ⟨h.1, h.2.2 xferOkEnv "BM222222" ⟨"tx-d", "tx-c", "t1", "t2"⟩ "u1"
    "BMAAA111" rfl (by decide) rfl (by decide) (by decide)⟩

theorem saveCloudBankState_writes (cfg err : Bool) (uid : String)
    (st : BankState) :
    ∀ w ∈ (saveCloudBankState cfg err uid st).2, w.bankState = st := by
  unfold saveCloudBankState
  split
  · intro w hw; cases hw
  · split
    · intro w hw; cases hw
    · intro w hw
      simp only [List.mem_cons, List.not_mem_nil, or_false] at hw
      subst hw
      rfl

theorem transfer_balance_nonneg (env : XferEnv) (target : String)
    (amount : JSNum) (note : String) (ids : XferIds) :
    0 ≤ (transferToAccountByNumber env target amount note ids).1.state.balance ∧
    ∀ w ∈ (transferToAccountByNumber env target amount note ids).2,
      0 ≤ w.bankState.balance := by
  have hget : 0 ≤ (senderRead env).1.balance :=
    getBankState_fst_nonneg _ _ _ _
  have hgetw : ∀ w ∈ (senderRead env).2, 0 ≤ w.bankState.balance :=
    getBankState_writes_nonneg _ _ _ _
  simp only [transferToAccountByNumber]
  cases htr : truthyStr env.authUid with
  | none => exact ⟨le_refl 0, fun w hw => absurd hw (List.not_mem_nil w)⟩
  | some senderUid =>
      simp only
      split
      · exact ⟨hget, hgetw⟩
      · split
        · exact ⟨hget, hgetw⟩
        · split
          · exact ⟨hget, hgetw⟩
          · split
            · exact ⟨hget, hgetw⟩
            · next hsafe hbal =>
                have hs : 0 ≤ (senderRead env).1.balance - jsSafeAmount amount :=
                  sub_nonneg.mpr (not_lt.mp hbal)
                have hr : 0 ≤ (normalizeState env.receiverBankState).balance +
                    jsSafeAmount amount :=
                  add_nonneg (normalizeState_balance_nonneg _)
                    (le_of_lt (not_le.mp hsafe))
                cases hrc : truthyStr env.receiverUid with
                | none => exact ⟨hget, hgetw⟩
                | some receiverUid =>
                    simp only
                    have hwrites : ∀ w ∈ (senderRead env).2 ++
                        (saveCloudBankState env.firebaseConfigured
                          env.senderCloudErr senderUid
                          (xferSenderNext env target note amount ids)).2 ++
                        (saveCloudBankState env.firebaseConfigured
                          env.receiverCloudErr receiverUid
                          (xferReceiverNext env senderUid note amount ids)).2 ++
                        [Write.localBank senderUid
                          (xferSenderNext env target note amount ids),
                         Write.localBank receiverUid
                          (xferReceiverNext env senderUid note amount ids)],
                        0 ≤ w.bankState.balance := by
                      intro w hw
                      simp only [List.mem_append, List.mem_cons,
                        List.not_mem_nil, or_false] at hw
                      rcases hw with ((hw | hw) | hw) | hw | hw
                      · exact hgetw w hw
                      · rw [saveCloudBankState_writes _ _ _ _ w hw]
                        exact hs
                      · rw [saveCloudBankState_writes _ _ _ _ w hw]
                        exact hr
                      · subst hw; exact hs
                      · subst hw; exact hr
                    split
                    · exact ⟨hs, hwrites⟩
                    · exact ⟨hs, hwrites⟩

/-- C4: non-negativity of the balance is an invariant: normalization always
produces a non-negative balance, every state read back by `getBankState`
has one, and starting from a non-negative balance the credit and debit
operations — as well as the result state, the sender side, and the receiver
side persisted by a transfer — keep the balance non-negative. -/
theorem balance_nonneg_invariant :
    (∀ x, 0 ≤ (normalizeState x).balance) ∧
    (∀ cfg uid docs localRaw,
      0 ≤ (getBankState cfg uid docs localRaw).1.balance) ∧
    (∀ s amount note txId createdAt, 0 ≤ s.balance →
      0 ≤ (addVirtualMoney s amount note txId createdAt).balance) ∧
    (∀ s amount note txId createdAt, 0 ≤ s.balance →
      0 ≤ (tryDeductVirtualMoney s amount note txId createdAt).state.balance) ∧
    (∀ env target amount note ids,
      0 ≤ (transferToAccountByNumber env target amount note
        ids).1.state.balance ∧
      ∀ w ∈ (transferToAccountByNumber env target amount note ids).2,
        0 ≤ w.bankState.balance) := by
  refine ⟨normalizeState_balance_nonneg, getBankState_fst_nonneg, ?_, ?_,
    transfer_balance_nonneg⟩
  · intro s amount note txId createdAt hb
    simp only [addVirtualMoney]
    split
    · exact hb
    · next h =>
        exact add_nonneg hb (le_of_lt (not_le.mp h))
  · intro s amount note txId createdAt hb
    simp only [tryDeductVirtualMoney]
    split
    · exact hb
    · split
      · exact hb
      · next h1 h2 => exact sub_nonneg.mpr (not_lt.mp h2)

/-- Witness for C4: exercising each hypothesis-carrying conjunct at a
concrete non-negative state. -/
theorem balance_nonneg_invariant_witness :
    0 ≤ (addVirtualMoney ⟨0, []⟩ (.finite 5) "n" "i" "c").balance ∧
    0 ≤ (tryDeductVirtualMoney ⟨7, []⟩ (.finite 5) "n" "i" "c").state.balance :=
  ⟨balance_nonneg_invariant.2.2.1 ⟨0, []⟩ (.finite 5) "n" "i" "c" (by decide),
   balance_nonneg_invariant.2.2.2.1 ⟨7, []⟩ (.finite 5) "n" "i" "c"
     (by decide)⟩

theorem isValidAccountNumber_ne_empty {s : String}
    (h : isValidAccountNumber s = true) : s ≠ "" := by
  intro he
  subst he
  exact Bool.noConfusion h

theorem truthyStr_eq_some {o : Option String} {v : String}
    (h : truthyStr o = some v) : o = some v ∧ v ≠ "" := by
  cases o with
  | none => exact Option.noConfusion h
  | some s =>
      simp only [truthyStr] at h
      by_cases hs : s = ""
      · rw [if_pos hs] at h
        exact Option.noConfusion h
      · rw [if_neg hs] at h
        obtain rfl := Option.some.inj h
        exact ⟨rfl, hs⟩

theorem truthyStr_some_of_ne {v : String} (h : v ≠ "") :
    truthyStr (some v) = some v := by
  simp only [truthyStr]
  rw [if_neg h]

/-- C1: a successful transfer between two distinct provisioned accounts
with sufficient balance and a finite positive amount — through either entry
point — debits the sender by exactly the amount with exactly one debit
transaction prepended (its note naming the receiver's normalized account),
and persists a receiver state credited by exactly the amount with exactly
one credit transaction prepended (its note naming the sender's account):
`transferToAccountByNumber` (bank.ts) remotely and to the local cache, and
`payToAccountByNumber` (savings.tsx) through the dual-tier persist helper
with a remote receiver write. -/
theorem transfer_success_spec (env : XferEnv) (penv : PayEnv)
    (target ptarget note : String) (q : ℚ)
    (ids : XferIds) (senderUid a receiverUid puid pown recipientUid : String)
    (hUid : truthyStr env.authUid = some senderUid)
    (hValid : isValidAccountNumber (jsTrimUpper target) = true)
    (hAcct : truthyStr env.senderAccount = some a)
    (hDistinct : jsTrimUpper a ≠ jsTrimUpper target)
    (hq : 0 < q)
    (hBal : q ≤ (senderRead env).1.balance)
    (hRecv : truthyStr env.receiverUid = some receiverUid)
    (hCfg : env.firebaseConfigured = true)
    (hSendOk : env.senderCloudErr = false)
    (hRecvOk : env.receiverCloudErr = false)
    (hpUid : truthyStr penv.authUid = some puid)
    (hpValid : isValidAccountNumber (normalizeAccountNumber ptarget) = true)
    (hpOwn : truthyStr penv.ownAccountNumber = some pown)
    (hpDistinct : normalizeAccountNumber pown ≠ normalizeAccountNumber ptarget)
    (hpBal : q ≤ penv.payerState.balance)
    (hpRecv : truthyStr penv.recipientUid = some recipientUid)
    (hpCfg : penv.firebaseConfigured = true)
    (hpRecvOk : penv.recipientCloudErr = false) :
    transferToAccountByNumber env target (.finite q) note ids =
      (⟨true, .paymentSuccess q (jsTrimUpper target),
        xferSenderNext env target note (.finite q) ids⟩,
        (senderRead env).2 ++
          [Write.remoteBank senderUid
            (xferSenderNext env target note (.finite q) ids),
           Write.remoteBank receiverUid
            (xferReceiverNext env senderUid note (.finite q) ids),
           Write.localBank senderUid
            (xferSenderNext env target note (.finite q) ids),
           Write.localBank receiverUid
            (xferReceiverNext env senderUid note (.finite q) ids)]) ∧
      xferSenderNext env target note (.finite q) ids =
        ⟨(senderRead env).1.balance - q,
          ⟨ids.debitId, .debit, q, note ++ " to " ++ jsTrimUpper target,
            ids.debitAt⟩ :: (senderRead env).1.transactions⟩ ∧
      xferReceiverNext env senderUid note (.finite q) ids =
        ⟨(normalizeState env.receiverBankState).balance + q,
          ⟨ids.creditId, .credit, q,
            note ++ " from " ++ env.senderAccount.getD senderUid,
            ids.creditAt⟩ ::
            (normalizeState env.receiverBankState).transactions⟩ ∧
      payToAccountByNumber penv ptarget (.finite q) note ids =
        (⟨true,
          ⟨penv.payerState.balance - q,
            ⟨ids.debitId, .debit, q,
              note ++ " to " ++ normalizeAccountNumber ptarget,
              ids.debitAt⟩ :: penv.payerState.transactions⟩,
          .paymentSuccess q (normalizeAccountNumber ptarget)⟩,
          persistStateForOwner penv.payerCtx penv.payerCloudErr
            ⟨penv.payerState.balance - q,
              ⟨ids.debitId, .debit, q,
                note ++ " to " ++ normalizeAccountNumber ptarget,
                ids.debitAt⟩ :: penv.payerState.transactions⟩ ++
          [Write.remoteBank recipientUid
            ⟨penv.recipientCloudPrev.balance + q,
              ⟨ids.creditId, .credit, q, note ++ " from " ++ pown,
                ids.creditAt⟩ ::
                penv.recipientCloudPrev.transactions⟩]) := by
  have hsafe : ¬ jsSafeAmount (.finite q) ≤ 0 := not_le.mpr hq
  have hbal : ¬ (senderRead env).1.balance < jsSafeAmount (.finite q) :=
    not_lt.mpr hBal
  have hpne : ¬ (normalizeAccountNumber ptarget = "" ∨
      isValidAccountNumber (normalizeAccountNumber ptarget) = false) := by
    rintro (he | hf)
    · exact isValidAccountNumber_ne_empty hpValid he
    · rw [hpValid] at hf
      exact Bool.noConfusion hf
  have hpbal : ¬ penv.payerState.balance < jsSafeAmount (.finite q) :=
    not_lt.mpr hpBal
  obtain ⟨hpOwnEq, hpownne⟩ := truthyStr_eq_some hpOwn
  obtain ⟨_, hrne⟩ := truthyStr_eq_some hpRecv
  refine ⟨?_, rfl, rfl, ?_⟩
  · simp only [transferToAccountByNumber, hUid, hValid, hAcct, hRecv, hCfg,
      hSendOk, hRecvOk, Option.map_some', Option.some.injEq, hDistinct, hsafe,
      hbal, saveCloudBankState, Bool.true_eq_false, if_false, ite_false,
      if_true, ite_true, or_self, if_neg, not_false_eq_true,
      List.cons_append, List.nil_append, List.append_assoc]
    simp
    rfl
  · simp only [payToAccountByNumber, hpUid, hpne, hpOwn, hpCfg, hpOwnEq,
      truthyStr_some_of_ne hpownne, truthyStr_some_of_ne hrne,
      Option.map_some', Option.some.injEq, hpDistinct, hsafe, hpbal, hpRecv,
      persistStateForOwner, hpRecvOk, Option.getD_some, Bool.true_eq_false,
      if_false, ite_false, if_true, ite_true, if_neg, not_false_eq_true]
    simp [show jsSafeAmount (JSNum.finite q) = q from rfl]

/-- Witness for C1: user `u1` (balance 100) transfers 40 to account
`BM222222` of user `u2` through each entry point; both transfers
succeed. -/
theorem transfer_success_spec_witness :
    (transferToAccountByNumber xferOkEnv "BM222222" (.finite 40) "QR payment"
      ⟨"tx-d", "tx-c", "t1", "t2"⟩).1.ok = true ∧
    (payToAccountByNumber payOkEnv "BM222222" (.finite 40) "QR payment"
      ⟨"tx-d", "tx-c", "t1", "t2"⟩).1.ok = true := by
  have h := transfer_success_spec xferOkEnv payOkEnv "BM222222" "BM222222"
    "QR payment" 40 ⟨"tx-d", "tx-c", "t1", "t2"⟩ "u1" "BMAAA111" "u2" "u1"
    "BMAAA111" "u2" rfl (by decide) rfl (by decide) (by decide) (by decide)
    rfl rfl rfl rfl rfl (by decide) rfl (by decide) (by decide) rfl rfl rfl
  exact ⟨by rw [h.1], by rw [h.2.2.2]⟩

/-- C8: when the sender-side cloud persist succeeds but the receiver-side
cloud persist fails, the transfer reports the partial failure (`ok = false`
with the partial-failure message) and keeps the sender's debited state (no
rollback): the returned state and the persisted sender writes still carry
the balance reduced by the amount. -/
theorem transfer_partial_failure_spec (env : XferEnv) (target note : String)
    (q : ℚ) (ids : XferIds) (senderUid a receiverUid : String)
    (hUid : truthyStr env.authUid = some senderUid)
    (hValid : isValidAccountNumber (jsTrimUpper target) = true)
    (hAcct : truthyStr env.senderAccount = some a)
    (hDistinct : jsTrimUpper a ≠ jsTrimUpper target)
    (hq : 0 < q)
    (hBal : q ≤ (senderRead env).1.balance)
    (hRecv : truthyStr env.receiverUid = some receiverUid)
    (hCfg : env.firebaseConfigured = true)
    (hSendOk : env.senderCloudErr = false)
    (hRecvErr : env.receiverCloudErr = true) :
    transferToAccountByNumber env target (.finite q) note ids =
      (⟨false, .partialCloudFailure,
        xferSenderNext env target note (.finite q) ids⟩,
        (senderRead env).2 ++
          [Write.remoteBank senderUid
            (xferSenderNext env target note (.finite q) ids),
           Write.localBank senderUid
            (xferSenderNext env target note (.finite q) ids),
           Write.localBank receiverUid
            (xferReceiverNext env senderUid note (.finite q) ids)]) ∧
      xferSenderNext env target note (.finite q) ids =
        ⟨(senderRead env).1.balance - q,
          ⟨ids.debitId, .debit, q, note ++ " to " ++ jsTrimUpper target,
            ids.debitAt⟩ :: (senderRead env).1.transactions⟩ := by
  have hsafe : ¬ jsSafeAmount (.finite q) ≤ 0 := not_le.mpr hq
  have hbal : ¬ (senderRead env).1.balance < jsSafeAmount (.finite q) :=
    not_lt.mpr hBal
  refine ⟨?_, rfl⟩
  simp only [transferToAccountByNumber, hUid, hValid, hAcct, hRecv, hCfg,
    hSendOk, hRecvErr, Option.map_some', Option.some.injEq, hDistinct, hsafe,
    hbal, saveCloudBankState, Bool.true_eq_false, if_false, ite_false,
    if_true, ite_true, or_true, not_false_eq_true,
    List.cons_append, List.nil_append, List.append_assoc]
  simp

/-- Witness for C8: as in the C1 witness but the receiver-side cloud write
fails; the transfer reports the partial failure. -/
theorem transfer_partial_failure_spec_witness :
    (transferToAccountByNumber xferPartialEnv "BM222222" (.finite 40)
      "QR payment" ⟨"tx-d", "tx-c", "t1", "t2"⟩).1.message =
      BankMsg.partialCloudFailure := by
  rw [(transfer_partial_failure_spec xferPartialEnv "BM222222" "QR payment"
    40 ⟨"tx-d", "tx-c", "t1", "t2"⟩ "u1" "BMAAA111" "u2" rfl (by decide) rfl
    (by decide) (by decide) (by decide) rfl rfl rfl rfl).1]

/-- C9 (amended): a transfer whose normalized target fails the account
format fails with the invalid-account result and performs no transfer-leg
writes — its storage writes are exactly those of the sender-state read it
performs (which may itself refresh the cache or initialize a missing
ledger). -/
theorem transfer_invalid_account_spec (env : XferEnv) (target note : String)
    (amount : JSNum) (ids : XferIds) (senderUid : String)
    (hUid : truthyStr env.authUid = some senderUid)
    (hInvalid : isValidAccountNumber (jsTrimUpper target) = false) :
    transferToAccountByNumber env target amount note ids =
      (⟨false, .invalidAccount, (senderRead env).1⟩, (senderRead env).2) := by
  simp only [transferToAccountByNumber, hUid, hInvalid, if_true, ite_true]

/-- Witness for C9's amended theorem: transferring to the malformed account
`"XYZ123"`. -/
theorem transfer_invalid_account_spec_witness :
    transferToAccountByNumber xferOkEnv "XYZ123" (.finite 5) "QR payment"
      ⟨"tx-d", "tx-c", "t1", "t2"⟩ =
      (⟨false, .invalidAccount, (senderRead xferOkEnv).1⟩,
        (senderRead xferOkEnv).2) :=
  transfer_invalid_account_spec xferOkEnv "XYZ123" "QR payment" (.finite 5)
    ⟨"tx-d", "tx-c", "t1", "t2"⟩ "u1" rfl (by decide)

/-- C9 counterexample: the claim's "no storage writes at all" is false — for
a signed-in user whose remote ledger document does not exist yet, the
sender-state read inside the invalid-account failure path writes a fresh
default ledger to the remote store (and the transfer's write list is
non-empty). -/
theorem transfer_invalid_account_counterexample :
    (transferToAccountByNumber xferFreshUserEnv "XYZ123" (.finite 5)
      "QR payment" ⟨"tx-d", "tx-c", "t1", "t2"⟩).1.message =
      BankMsg.invalidAccount ∧
    (transferToAccountByNumber xferFreshUserEnv "XYZ123" (.finite 5)
      "QR payment" ⟨"tx-d", "tx-c", "t1", "t2"⟩).2 =
      [Write.remoteBank "u1" defaultBankState] := by
  exact ⟨by decide, by decide⟩

/-- C7 (amended): in `transferToAccountByNumber` the self-transfer check
precedes amount validation, so a transfer to the caller's own account fails
with the self-transfer result for every amount, valid or not, returning the
sender's current state and performing only the writes of the sender-state
read; in `payToAccountByNumber` amount validation comes first, so a
self-payment fails with the self-payment result only for amounts with a
positive safe value, while non-positive or non-finite amounts fail with the
invalid-amount result instead — in both cases with the payer's current
state and no writes. -/
theorem transfer_self_spec (env : XferEnv) (penv : PayEnv)
    (target ptarget note : String) (ids : XferIds)
    (senderUid a puid pown : String)
    (hUid : truthyStr env.authUid = some senderUid)
    (hValid : isValidAccountNumber (jsTrimUpper target) = true)
    (hAcct : truthyStr env.senderAccount = some a)
    (hSelf : jsTrimUpper a = jsTrimUpper target)
    (hpUid : truthyStr penv.authUid = some puid)
    (hpValid : isValidAccountNumber (normalizeAccountNumber ptarget) = true)
    (hpOwn : truthyStr penv.ownAccountNumber = some pown)
    (hpSelf : normalizeAccountNumber pown = normalizeAccountNumber ptarget) :
    (∀ amount, transferToAccountByNumber env target amount note ids =
      (⟨false, .cannotPaySelf, (senderRead env).1⟩, (senderRead env).2)) ∧
    (∀ amount, ¬ jsSafeAmount amount ≤ 0 →
      payToAccountByNumber penv ptarget amount note ids =
        (⟨false, penv.payerState, .cannotPaySelf⟩, [])) ∧
    (∀ amount, jsSafeAmount amount ≤ 0 →
      payToAccountByNumber penv ptarget amount note ids =
        (⟨false, penv.payerState, .invalidAmount⟩, [])) := by
  have hne : ¬ (normalizeAccountNumber ptarget = "" ∨
      isValidAccountNumber (normalizeAccountNumber ptarget) = false) := by
    rintro (he | hf)
    · exact isValidAccountNumber_ne_empty hpValid he
    · rw [hpValid] at hf
      exact Bool.noConfusion hf
  refine ⟨?_, ?_, ?_⟩
  · intro amount
    simp only [transferToAccountByNumber, hUid, hValid, hAcct,
      Option.map_some', Option.some.injEq, hSelf, Bool.true_eq_false,
      ite_false, ite_true, if_true, if_false]
  · intro amount hamt
    simp only [payToAccountByNumber, hpUid, hne, hamt, hpOwn,
      Option.map_some', Option.some.injEq, hpSelf, Bool.true_eq_false,
      ite_false, ite_true, if_true, if_false, if_neg, not_false_eq_true]
  · intro amount hamt
    simp only [payToAccountByNumber, hpUid, hne, hamt, Bool.true_eq_false,
      ite_false, ite_true, if_true, if_false, if_neg, not_false_eq_true]

/-- Witness for C7's amended theorem: `u1` paying their own account
`BMAAA111` via the bank library (amount 5), and their own account
`BM123456` via the savings module (amounts 5 and 0). -/
theorem transfer_self_spec_witness :
    transferToAccountByNumber xferOkEnv "BMAAA111" (.finite 5) "QR payment"
      ⟨"tx-d", "tx-c", "t1", "t2"⟩ =
      (⟨false, .cannotPaySelf, (senderRead xferOkEnv).1⟩,
        (senderRead xferOkEnv).2) ∧
    payToAccountByNumber payOwnAccountEnv "BM123456" (.finite 5) "QR payment"
      ⟨"tx-d", "tx-c", "t1", "t2"⟩ =
      (⟨false, payOwnAccountEnv.payerState, .cannotPaySelf⟩, []) ∧
    payToAccountByNumber payOwnAccountEnv "BM123456" (.finite 0) "QR payment"
      ⟨"tx-d", "tx-c", "t1", "t2"⟩ =
      (⟨false, payOwnAccountEnv.payerState, .invalidAmount⟩, []) := by
  have h := transfer_self_spec xferOkEnv payOwnAccountEnv "BMAAA111"
    "BM123456" "QR payment" ⟨"tx-d", "tx-c", "t1", "t2"⟩ "u1" "BMAAA111"
    "u1" "BM123456" rfl (by decide) rfl rfl rfl (by decide) rfl (by decide)
  exact ⟨h.1 (.finite 5), h.2.1 (.finite 5) (by decide),
    h.2.2 (.finite 0) (by decide)⟩

/-- C7 counterexample: the claim says the self-transfer error takes
precedence over amount validation for every transfer entry point, but in
`payToAccountByNumber` a zero-amount payment to the caller's own account
(`payOwnAccountEnv` owns `BM123456`) fails with the invalid-amount message,
not the self-payment one. -/
theorem pay_self_zero_amount_counterexample :
    payOwnAccountEnv.ownAccountNumber = some "BM123456" ∧
    (payToAccountByNumber payOwnAccountEnv "BM123456" (.finite 0)
      "QR payment" ⟨"tx-d", "tx-c", "t1", "t2"⟩).1.message =
      BankMsg.invalidAmount ∧
    BankMsg.invalidAmount ≠ BankMsg.cannotPaySelf := by
  exact ⟨rfl, by decide, by decide⟩

theorem jsTrim_ne_empty {a : String} (h : ¬ jsTrim a = "") : a ≠ "" := by
  intro he
  subst he
  exact h rfl

theorem ensureReserveLoop_ne_empty (env : EnsureEnv) :
    ∀ fuel i, ensureReserveLoop env i fuel ≠ "" := by
  intro fuel
  induction fuel with
  | zero => intro i; exact generateAccountNumber_ne_empty _ _
  | succ fuel ih =>
      intro i
      simp only [ensureReserveLoop]
      split
      · exact generateAccountNumber_ne_empty _ _
      · split
        · next a heq =>
            split
            · split
              · exact ih (i + 1)
              · exact generateAccountNumber_ne_empty _ _
            · next htrim => exact jsTrim_ne_empty htrim
        · split
          · exact ih (i + 1)
          · exact generateAccountNumber_ne_empty _ _

theorem ensure_fresh_result (env : EnsureEnv) (localStored : Option String)
    (uid : String) (h : uid ≠ "") (hl : truthyStr localStored = none) :
    ∃ r, r ≠ "" ∧
      ensureBankAccountForUser env localStored uid = (some r, some r) := by
  unfold ensureBankAccountForUser
  rw [if_neg h, hl]
  simp only
  split
  · exact ⟨envFallback env, generateAccountNumber_ne_empty _ _, rfl⟩
  · split
    · exact ⟨envFallback env, generateAccountNumber_ne_empty _ _, rfl⟩
    · split
      · next a heq =>
          split
          · exact ⟨ensureReserveLoop env 0 8,
              ensureReserveLoop_ne_empty env 8 0, rfl⟩
          · next htrim => exact ⟨a, jsTrim_ne_empty htrim, rfl⟩
      · exact ⟨ensureReserveLoop env 0 8,
          ensureReserveLoop_ne_empty env 8 0, rfl⟩

/-- C6: account provisioning is idempotent.  Once a (truthy) account number
is cached locally for an identity, every call returns that cached value and
leaves the cache unchanged; and re-running the allocator after any completed
first call — whatever the environments — returns exactly the account number
the first call produced. -/
theorem ensure_provisioning_idempotent (env1 env2 : EnsureEnv)
    (localStored : Option String) (uid : String) (h : uid ≠ "") :
    (∀ a, truthyStr localStored = some a →
      ensureBankAccountForUser env1 localStored uid = (some a, localStored)) ∧
    ensureBankAccountForUser env2
        (ensureBankAccountForUser env1 localStored uid).2 uid =
      ((ensureBankAccountForUser env1 localStored uid).1,
       (ensureBankAccountForUser env1 localStored uid).2) := by
  constructor
  · intro a ha
    unfold ensureBankAccountForUser
    rw [if_neg h, ha]
  · cases hl : truthyStr localStored with
    | some v =>
        obtain ⟨hst, hv⟩ := truthyStr_eq_some hl
        have h1 : ensureBankAccountForUser env1 localStored uid =
            (some v, localStored) := by
          unfold ensureBankAccountForUser
          rw [if_neg h, hl]
        rw [h1, hst]
        unfold ensureBankAccountForUser
        rw [if_neg h, truthyStr_some_of_ne hv]
    | none =>
        obtain ⟨r, hr, h1⟩ := ensure_fresh_result env1 localStored uid h hl
        rw [h1]
        unfold ensureBankAccountForUser
        rw [if_neg h, truthyStr_some_of_ne hr]

/-- Witness for C6: provisioning `u1` against a clean remote store and then
re-running the allocator in a degraded environment returns the same account
number both times. -/
theorem ensure_provisioning_idempotent_witness :
    ensureBankAccountForUser ensureRetryEnv
        (ensureBankAccountForUser ensureOkEnv none "u1").2 "u1" =
      ((ensureBankAccountForUser ensureOkEnv none "u1").1,
       (ensureBankAccountForUser ensureOkEnv none "u1").2) :=
  (ensure_provisioning_idempotent ensureOkEnv ensureRetryEnv none "u1"
    (by decide)).2

/-- C10 (amended): generated account numbers match the `BM` + ≥6
upper-alphanumeric format whenever the millisecond clock value has at least
two digits (always true in practice) and `Math.random()` is non-negative;
the deterministic local fallback of `savings.tsx` matches the format
exactly when the uid contributes at least 6 alphanumeric characters. -/
theorem account_number_format_spec (now : Nat) (rand : ℚ) (uid : String)
    (hnow : 10 ≤ now) (hrand : 0 ≤ rand)
    (huid : 6 ≤ (uid.data.filter isAsciiAlnumChar).length) :
    isValidAccountNumber (generateAccountNumber now rand) = true ∧
    isValidAccountNumber (localFallbackAccount uid) = true :=
  ⟨generateAccountNumber_valid now rand hnow hrand,
    localFallbackAccount_valid uid huid⟩

/-- Witness for C10's amended theorem: a realistic clock value and the uid
`"user42abc"` (9 alphanumeric characters). -/
theorem account_number_format_spec_witness :
    isValidAccountNumber (generateAccountNumber 1771234567890 0) = true ∧
    isValidAccountNumber (localFallbackAccount "user42abc") = true :=
  account_number_format_spec 1771234567890 0 "user42abc" (by decide)
    (by decide) (by decide)

theorem localAllocLoop_all_taken (uidMap : List (String × String))
    (gens : Nat → Nat × ℚ)
    (h : ∀ i, uidMapTaken uidMap
      (generateAccountNumber (gens i).1 (gens i).2) = true) :
    ∀ fuel i, localAllocLoop uidMap gens i fuel = none := by
  intro fuel
  induction fuel with
  | zero => intro i; rfl
  | succ fuel ih =>
      intro i
      simp only [localAllocLoop, h i, if_true, ite_true]
      exact ih (i + 1)

theorem generateAccountNumber_cex_eval :
    generateAccountNumber 100000 0 = "BM1000001000" := by
  have h1 : ((1000 : ℚ) + 0 * 9000) = 1000 := by norm_num
  unfold generateAccountNumber
  rw [h1]
  decide

/-- C10 counterexample: for uid `"u1"`, when all ten random candidates
collide with entries of the local uid map, `getOrCreateLocalAccountNumber`
returns the deterministic fallback `"BMU1"`, which does not match the
`BM[A-Z0-9]{6,}` account-number format. -/
theorem local_fallback_format_counterexample :
    getOrCreateLocalAccountNumber none localAllocCexMap localAllocCexGens
      "u1" = "BMU1" ∧
    isValidAccountNumber "BMU1" = false := by
  constructor
  · have hloop : localAllocLoop localAllocCexMap localAllocCexGens 0 10 =
        none := by
      refine localAllocLoop_all_taken _ _ ?_ 10 0
      intro i
      show uidMapTaken localAllocCexMap (generateAccountNumber 100000 0) =
        true
      rw [generateAccountNumber_cex_eval]
      decide
    show (match localAllocLoop localAllocCexMap localAllocCexGens 0 10 with
      | some candidate => candidate
      | none => localFallbackAccount "u1") = "BMU1"
    rw [hloop]
    decide
  · decide
